import Mathlib

/-!
Verification of the grumble message-handling core (`src/message.go`) against
its natural-language specification.

The handlers under verification — `handleCryptSetup`, `handlePingMessage`,
`handleUserStateMessage`, `handleTextMessage` — are translated from
`src/message.go`.  The surrounding data types (`Client`, `CryptState`,
`Channel`, `Server`) live in other packages of the repository that are not
part of the provided source; they are modelled from the specification's data
model, restricted to the fields the handlers touch.

All handlers are modelled after protobuf decoding has succeeded: the spec
treats wire decoding as an external collaborator, and every claim quantifies
over already-decoded requests.  A Go runtime panic (nil-pointer dereference
or `log.Panic`) is modelled by the `Outcome.crash` constructor; a normal
return is `Outcome.ok` carrying the final server state and the list of
messages sent (in order), each tagged with the destination client's session.
-/

namespace Grumble

/-- Modelled from the spec: the cipher block width of the missing
`cryptstate` package (`cryptstate.AESBlockSize`); the spec fixes the IVs to
"exactly the cipher's block width" and the cipher is AES, whose block is 16
bytes. -/
def AESBlockSize : Nat := 16

/-- Go's builtin `copy(dst, src)` on byte slices: overwrites the first
`min (length dst) (length src)` entries of `dst` with those of `src` and
returns the number of bytes copied together with the updated destination. -/
def copyBytes (dst src : List Nat) : List Nat × Nat :=
  let n := min dst.length src.length
  (src.take n ++ dst.drop n, n)

/-- Modelled from the spec: per-client cryptographic state of the missing
`cryptstate` package.  Two direction IVs (fixed block-width byte arrays in
the source, here lists with a block-width invariant carried by hypotheses)
and the monotonic good/late/lost/resync counters. -/
structure CryptState where
  encryptIV : List Nat
  decryptIV : List Nat
  good : Nat
  late : Nat
  lost : Nat
  resync : Nat
  deriving DecidableEq, Repr

/-- Modelled from the spec: the per-connection client record of the missing
client package, restricted to what the handlers read or the claims mention:
the unique session id, the crypt state, the current-channel reference and
the optional registered identity. -/
structure Client where
  session : Nat
  crypt : CryptState
  currentChannel : Nat
  userId : Option Nat
  deriving DecidableEq, Repr

/-- Modelled from the spec: a channel record, restricted to its id and its
member session set (a list of session ids). -/
structure Channel where
  id : Nat
  members : List Nat
  deriving DecidableEq, Repr

/-- Modelled from the spec: the server's registries `server.clients`
(session id → client) and `server.channels` (channel id → channel), as
association lists. -/
structure Server where
  clients : List (Nat × Client)
  channels : List (Nat × Channel)
  deriving DecidableEq, Repr

/-- Association-list lookup; `assocFind k m = none` models a Go map lookup
that misses (for a map with pointer values the zero value is `nil`). -/
def assocFind {α : Type} (k : Nat) : List (Nat × α) → Option α
  | [] => none
  | p :: rest => if p.1 = k then some p.2 else assocFind k rest

/-- Registry well-formedness from the spec's data-model invariants: every
client stored under a session key has that key as its session id. -/
def WellFormed (server : Server) : Prop :=
  ∀ p ∈ server.clients, (p.2 : Client).session = p.1

/-- Decoded `mumbleproto.CryptSetup` record.  A `nil` protobuf bytes field
has length 0, which is all the handler inspects, so `clientNonce` is a plain
list; the remaining fields are only echoed back. -/
structure CryptSetup where
  key : Option (List Nat) := none
  clientNonce : List Nat := []
  serverNonce : Option (List Nat) := none
  deriving DecidableEq, Repr

/-- Decoded `mumbleproto.Ping` record, restricted to the one field
`handlePingMessage` reads. -/
structure Ping where
  timestamp : Option Nat := none
  deriving DecidableEq, Repr

/-- Decoded `mumbleproto.UserState` record, restricted to the fields the
handler or the claims mention. -/
structure UserState where
  session : Option Nat := none
  actor : Option Nat := none
  userId : Option Int := none
  channelId : Option Nat := none
  mute : Option Bool := none
  deaf : Option Bool := none
  suppress : Option Bool := none
  selfMute : Option Bool := none
  selfDeaf : Option Bool := none
  texture : Option (List Nat) := none
  pluginContext : Option (List Nat) := none
  pluginIdentity : Option String := none
  comment : Option String := none
  prioritySpeaker : Option Bool := none
  recording : Option Bool := none
  deriving DecidableEq, Repr

/-- Decoded `mumbleproto.TextMessage` record, restricted to the fields the
handler reads (`Session`, `Message`). -/
structure TextMessage where
  session : List Nat := []
  message : Option String := none
  deriving DecidableEq, Repr

/-- An outbound protocol message, as built by the handlers. -/
inductive ProtoMsg where
  | cryptSetupMsg (key : Option (List Nat)) (clientNonce : List Nat)
      (serverNonce : Option (List Nat))
  | pingMsg (timestamp : Option Nat) (good late lost resync : Nat)
  | textMessageMsg (actor : Option Nat) (message : Option String)
  deriving DecidableEq, Repr

/-- One call to `client.sendProtoMessage`: the message enqueued on the
outbound queue of the client with session `dest` (modelled from the spec's
per-client outbound queues). -/
structure Send where
  dest : Nat
  msg : ProtoMsg
  deriving DecidableEq, Repr

/-- Result of running a handler: a normal return with the final server state
and the sends it performed, or a Go runtime panic (`crash`). -/
inductive Outcome where
  | ok (server : Server) (sent : List Send)
  | crash
  deriving DecidableEq, Repr

/-- Go `uint32(n)` conversion applied to a natural-number counter. -/
def uint32Of (n : Nat) : Nat := n % 4294967296

/-- Translation of `handleCryptSetup` (`src/message.go:77`).  The server
receiver is never read or written by the source function, so the embedding
takes and returns only the client (mutated through its pointer in Go) and
the list of sends.

* empty client nonce: build a block-width buffer, `copy` the encrypt IV into
  it; if fewer than `AESBlockSize` bytes were copied, return without
  sending; otherwise send the request back with `clientNonce` replaced by
  the copied IV (`src/message.go:87-93`);
* nonce of the wrong width: return, touching nothing
  (`src/message.go:96-98`);
* block-width nonce: increment `Resync`, `copy` the nonce over the decrypt
  IV, and return (the post-copy length check only skips a log line)
  (`src/message.go:100-104`). -/
def handleCryptSetup (client : Client) (cs : CryptSetup) : Client × List Send :=
  if cs.clientNonce.length = 0 then
    let p := copyBytes (List.replicate AESBlockSize 0) client.crypt.encryptIV
    if p.2 ≠ AESBlockSize then
      (client, [])
    else
      (client, [⟨client.session, ProtoMsg.cryptSetupMsg cs.key p.1 cs.serverNonce⟩])
  else
    if cs.clientNonce.length ≠ AESBlockSize then
      (client, [])
    else
      let c1 : Client :=
        { client with crypt := { client.crypt with resync := client.crypt.resync + 1 } }
      let p := copyBytes c1.crypt.decryptIV cs.clientNonce
      ({ c1 with crypt := { c1.crypt with decryptIV := p.1 } }, [])

/-- Translation of `handlePingMessage` (`src/message.go:108`): reply to the
originating client with a fresh Ping echoing the request's timestamp and
carrying the client's crypt counters cast to `uint32`; no state is written. -/
def handlePingMessage (client : Client) (ping : Ping) : Client × List Send :=
  (client,
   [⟨client.session,
     ProtoMsg.pingMsg ping.timestamp
       (uint32Of client.crypt.good) (uint32Of client.crypt.late)
       (uint32Of client.crypt.lost) (uint32Of client.crypt.resync)⟩])

/-- The disjunction guarding the self-targeting early return at
`src/message.go:226-228`, in source order. -/
def selfFieldPresent (userstate : UserState) : Bool :=
  userstate.selfDeaf.isSome || userstate.selfMute.isSome ||
  userstate.texture.isSome || userstate.pluginContext.isSome ||
  userstate.pluginIdentity.isSome || userstate.recording.isSome

/-- Translation of `handleUserStateMessage` (`src/message.go:139`).

* missing session field: return (`src/message.go:147-150`);
* `actor := server.clients[client.Session]`, `user := server.clients[*userstate.Session]`:
  a miss yields a `nil` `*Client`, and the unconditional rewrites
  `userstate.Session = proto.Uint32(user.Session)` /
  `userstate.Actor = proto.Uint32(actor.Session)` (`src/message.go:158-159`)
  then dereference it — a runtime panic, modelled as `Outcome.crash`;
* the channel-id block (`src/message.go:162-174`) only looks up the
  destination channel and logs it; the move checks and the move itself are
  comments, so nothing depends on the lookup;
* the mute/deaf/suppress/priority, comment, texture and registration blocks
  (`src/message.go:176-215`) are comment-only: no check is performed and no
  state is written;
* the self-targeting guard (`src/message.go:226-230`) returns early when the
  actor and target differ (distinct registry entries, hence distinct session
  ids) and any of self-deaf, self-mute, texture, plugin-context,
  plugin-identity, recording is present;
* the function then ends having written no server or client state and sent
  nothing. -/
def handleUserStateMessage (server : Server) (client : Client)
    (userstate : UserState) : Outcome :=
  match userstate.session with
  | none => Outcome.ok server []
  | some sid =>
    match assocFind client.session server.clients, assocFind sid server.clients with
    | some actor, some user =>
      let userstate :=
        { userstate with session := some user.session, actor := some actor.session }
      let _dstChan : Option Channel :=
        match userstate.channelId with
        | some cid => assocFind cid server.channels
        | none => none
      if actor.session ≠ user.session ∧ selfFieldPresent userstate = true then
        Outcome.ok server []
      else
        Outcome.ok server []
    | _, _ => Outcome.crash

/-- The collection loop of `handleTextMessage` (`src/message.go:245-252`):
look up every destination session in order; a missing session hits
`log.Panic` (modelled `none`), otherwise the list of resolved clients is
returned. -/
def collectUsers (server : Server) : List Nat → Option (List Client)
  | [] => some []
  | s :: rest =>
    match assocFind s server.clients with
    | none => none
    | some user =>
      match collectUsers server rest with
      | none => none
      | some users => some (user :: users)

/-- Translation of `handleTextMessage` (`src/message.go:237`): resolve all
destination sessions (any miss is a `log.Panic`, modelled `Outcome.crash`),
then send each resolved client a fresh TextMessage whose actor is the
sender's session and whose body is the request's. -/
def handleTextMessage (server : Server) (client : Client)
    (txtmsg : TextMessage) : Outcome :=
  match collectUsers server txtmsg.session with
  | none => Outcome.crash
  | some users =>
    Outcome.ok server
      (users.map fun user =>
        ⟨user.session, ProtoMsg.textMessageMsg (some client.session) txtmsg.message⟩)

/-! ### Helper lemmas -/

theorem copyBytes_eq_src (dst src : List Nat) (h : dst.length = src.length) :
    copyBytes dst src = (src, src.length) := by
  simp [copyBytes, h, List.take_of_length_le, List.drop_of_length_le]

theorem assocFind_mem {α : Type} {k : Nat} {v : α} :
    ∀ {l : List (Nat × α)}, assocFind k l = some v → (k, v) ∈ l := by
  intro l
  induction l with
  | nil => intro h; simp [assocFind] at h
  | cons p rest ih =>
    intro h
    by_cases hk : p.1 = k
    · simp [assocFind, hk] at h
      subst hk h
      exact List.mem_cons_self _ _
    · simp [assocFind, hk] at h
      exact List.mem_cons_of_mem _ (ih h)

theorem collectUsers_isSome (server : Server) :
    ∀ l : List Nat, (∀ s ∈ l, (assocFind s server.clients).isSome) →
      ∃ users, collectUsers server l = some users := by
  intro l
  induction l with
  | nil => intro _; exact ⟨[], rfl⟩
  | cons s rest ih =>
    intro h
    obtain ⟨user, hu⟩ := Option.isSome_iff_exists.mp (h s (List.mem_cons_self _ _))
    obtain ⟨users, hus⟩ := ih fun t ht => h t (List.mem_cons_of_mem _ ht)
    exact ⟨user :: users, by simp [collectUsers, hu, hus]⟩

theorem collectUsers_sessions {server : Server} (hwf : WellFormed server) :
    ∀ {l : List Nat} {users : List Client}, collectUsers server l = some users →
      users.map Client.session = l := by
  intro l
  induction l with
  | nil => intro users h; simp [collectUsers] at h; simp [← h]
  | cons s rest ih =>
    intro users h
    simp only [collectUsers] at h
    rcases hfind : assocFind s server.clients with _ | user
    · rw [hfind] at h; exact absurd h (by simp)
    · rw [hfind] at h
      rcases hrest : collectUsers server rest with _ | tailUsers
      · rw [hrest] at h; exact absurd h (by simp)
      · rw [hrest] at h
        simp only [Option.some.injEq] at h
        subst h
        have hsess : user.session = s := hwf (s, user) (assocFind_mem hfind)
        simp [hsess, ih hrest]

theorem collectUsers_none_of_missing (server : Server) :
    ∀ {l : List Nat} {s : Nat}, s ∈ l → assocFind s server.clients = none →
      collectUsers server l = none := by
  intro l
  induction l with
  | nil => intro s h; simp at h
  | cons t rest ih =>
    intro s hmem hnone
    rcases List.mem_cons.mp hmem with heq | htail
    · subst heq
      simp [collectUsers, hnone]
    · simp only [collectUsers]
      rcases hfind : assocFind t server.clients with _ | user
      · rfl
      · rw [ih htail hnone]

/-! ### Concrete sample values used by the witnesses -/

/-- A sample block-width encrypt IV. -/
def ivA : List Nat := List.replicate AESBlockSize 1

/-- A sample block-width decrypt IV. -/
def ivB : List Nat := List.replicate AESBlockSize 3

/-- A sample block-width client nonce. -/
def nonceA : List Nat := List.replicate AESBlockSize 7

/-- A sample crypt state with block-width IVs and nonzero counters. -/
def sampleCrypt : CryptState :=
  { encryptIV := ivA, decryptIV := ivB, good := 5, late := 2, lost := 1, resync := 4 }

/-- Sample connected client with session id 1, sitting in channel 0. -/
def client1 : Client :=
  { session := 1, crypt := sampleCrypt, currentChannel := 0, userId := none }

/-- Sample connected client with session id 2. -/
def client2 : Client :=
  { session := 2, crypt := sampleCrypt, currentChannel := 0, userId := none }

/-- Sample connected client with session id 3. -/
def client3 : Client :=
  { session := 3, crypt := sampleCrypt, currentChannel := 0, userId := none }

/-- Sample connected client with session id 5. -/
def client5 : Client :=
  { session := 5, crypt := sampleCrypt, currentChannel := 0, userId := none }

/-- Sample connected client with session id 7. -/
def client7 : Client :=
  { session := 7, crypt := sampleCrypt, currentChannel := 0, userId := none }

/-- Sample server: clients 1, 2, 3, 5, 7 all in channel 0; channel 1 empty. -/
def sampleServer : Server :=
  { clients := [(1, client1), (2, client2), (3, client3), (5, client5), (7, client7)],
    channels := [(0, { id := 0, members := [1, 2, 3, 5, 7] }),
                 (1, { id := 1, members := [] })] }

/-! ### Claim theorems -/

/-- Claim C1: a UserState request whose actor session differs from the target
user session and which carries any of self-deaf, self-mute, texture,
plugin-context, plugin-identity or recording is dropped whole by
`handleUserStateMessage`: the server state is unchanged, nothing is sent, and
in particular no co-present field (such as a comment) is applied. -/
theorem userstate_selftarget_drops_request
    (server : Server) (client : Client) (userstate : UserState)
    (sid : Nat) (actor user : Client)
    (hsess : userstate.session = some sid)
    (hactor : assocFind client.session server.clients = some actor)
    (huser : assocFind sid server.clients = some user)
    (hdiff : actor.session ≠ user.session)
    (hself : selfFieldPresent userstate = true) :
    handleUserStateMessage server client userstate = Outcome.ok server [] := by
  simp [handleUserStateMessage, hsess, hactor, huser]

/-- Witness for C1: client 1 targets client 2 with self-mute and a comment
present; the request is dropped whole. -/
theorem userstate_selftarget_drops_request_witness :
    handleUserStateMessage sampleServer client1
      { session := some 2, selfMute := some true, comment := some "hello" } =
      Outcome.ok sampleServer [] :=
  userstate_selftarget_drops_request sampleServer client1
    { session := some 2, selfMute := some true, comment := some "hello" }
    2 client1 client2 rfl (by decide) (by decide) (by decide) (by decide)

/-- Claim C2 (code bug): the claim says a UserState request naming an unknown
target session is dropped silently without crashing; in the code the map miss
yields a nil `*Client` which `userstate.Session = proto.Uint32(user.Session)`
(`src/message.go:158`) dereferences, a runtime panic.  This theorem evaluates
the code on that class of inputs: the handler crashes. -/
theorem userstate_unknown_session_crashes
    (server : Server) (client : Client) (userstate : UserState) (sid : Nat)
    (hsess : userstate.session = some sid)
    (hunknown : assocFind sid server.clients = none) :
    handleUserStateMessage server client userstate = Outcome.crash := by
  simp only [handleUserStateMessage, hsess]
  rcases h : assocFind client.session server.clients with _ | actor <;>
    simp [h, hunknown]

/-- Witness for C2: registered client 1 names unknown session 42 and the
handler panics. -/
theorem userstate_unknown_session_crashes_witness :
    handleUserStateMessage sampleServer client1 { session := some 42 } =
      Outcome.crash :=
  userstate_unknown_session_crashes sampleServer client1 { session := some 42 }
    42 rfl (by decide)

/-- Claim C3 (code bug): the claim says an unknown destination session in a
TextMessage is treated as malformed input and dropped locally for that
destination; in the code the miss hits `log.Panic`
(`src/message.go:249`), aborting the whole handler before any send.  This
theorem evaluates the code on that class of inputs: the handler crashes. -/
theorem textmessage_unknown_destination_crashes
    (server : Server) (client : Client) (txtmsg : TextMessage) (s : Nat)
    (hmem : s ∈ txtmsg.session)
    (hunknown : assocFind s server.clients = none) :
    handleTextMessage server client txtmsg = Outcome.crash := by
  simp [handleTextMessage, collectUsers_none_of_missing server hmem hunknown]

/-- Witness for C3: a TextMessage to sessions 5 and 42, the latter unknown,
makes the handler panic (so not even session 5 is served). -/
theorem textmessage_unknown_destination_crashes_witness :
    handleTextMessage sampleServer client3 { session := [5, 42], message := some "hi" } =
      Outcome.crash :=
  textmessage_unknown_destination_crashes sampleServer client3
    { session := [5, 42], message := some "hi" } 42 (by decide) (by decide)

/-- Claim C4: a CryptSetup request with a nonce of exactly the cipher block
width makes `handleCryptSetup` overwrite the client's decrypt IV with the
nonce and increment the resync counter by exactly 1. -/
theorem cryptsetup_valid_nonce_resync (client : Client) (cs : CryptSetup)
    (hnonce : cs.clientNonce.length = AESBlockSize)
    (hiv : client.crypt.decryptIV.length = AESBlockSize) :
    (handleCryptSetup client cs).1.crypt.decryptIV = cs.clientNonce ∧
    (handleCryptSetup client cs).1.crypt.resync = client.crypt.resync + 1 := by
  have hne : cs.clientNonce.length ≠ 0 := by rw [hnonce]; decide
  have hcopy := copyBytes_eq_src client.crypt.decryptIV cs.clientNonce
    (by rw [hiv, hnonce])
  simp [handleCryptSetup, hne, hnonce, hcopy, AESBlockSize]

/-- Witness for C4: client 1 resyncs with a concrete 16-byte nonce. -/
theorem cryptsetup_valid_nonce_resync_witness :
    (handleCryptSetup client1 { clientNonce := nonceA }).1.crypt.decryptIV = nonceA ∧
    (handleCryptSetup client1 { clientNonce := nonceA }).1.crypt.resync =
      client1.crypt.resync + 1 :=
  cryptsetup_valid_nonce_resync client1 { clientNonce := nonceA }
    (by decide) (by decide)

/-- Claim C5: a CryptSetup request with a non-empty nonce of the wrong width
is ignored by `handleCryptSetup`: the client (its whole CryptState, both IVs
and every counter included) is unchanged and nothing is sent. -/
theorem cryptsetup_bad_nonce_ignored (client : Client) (cs : CryptSetup)
    (hne : cs.clientNonce.length ≠ 0)
    (hbad : cs.clientNonce.length ≠ AESBlockSize) :
    handleCryptSetup client cs = (client, []) := by
  simp [handleCryptSetup, hne, hbad]

/-- Witness for C5: a 3-byte nonce is ignored and client 2 is untouched. -/
theorem cryptsetup_bad_nonce_ignored_witness :
    handleCryptSetup client2 { clientNonce := [9, 9, 9] } = (client2, []) :=
  cryptsetup_bad_nonce_ignored client2 { clientNonce := [9, 9, 9] }
    (by decide) (by decide)

/-- Claim C6: a CryptSetup request with no client nonce makes
`handleCryptSetup` reply to the requesting client with a CryptSetup whose
nonce field equals the client's current encrypt-direction IV, leaving the
client unchanged (the copy-failure branch, which sends nothing and changes
nothing, is unreachable under the block-width IV invariant). -/
theorem cryptsetup_empty_nonce_reply (client : Client) (cs : CryptSetup)
    (hempty : cs.clientNonce.length = 0)
    (hiv : client.crypt.encryptIV.length = AESBlockSize) :
    handleCryptSetup client cs =
      (client, [⟨client.session,
        ProtoMsg.cryptSetupMsg cs.key client.crypt.encryptIV cs.serverNonce⟩]) := by
  have hcopy := copyBytes_eq_src (List.replicate AESBlockSize 0)
    client.crypt.encryptIV (by simp [hiv])
  simp [handleCryptSetup, hempty, hcopy, hiv]

/-- Witness for C6: an all-default CryptSetup request sent by client 1 is
answered with client 1's encrypt IV. -/
theorem cryptsetup_empty_nonce_reply_witness :
    handleCryptSetup client1 {} =
      (client1, [⟨client1.session,
        ProtoMsg.cryptSetupMsg none client1.crypt.encryptIV none⟩]) :=
  cryptsetup_empty_nonce_reply client1 {} rfl (by decide)

/-- Claim C7: a TextMessage whose destination sessions all resolve produces
exactly one outbound TextMessage per listed destination, in order, addressed
to that session, each carrying the sender's session as actor; and when the
sender is not listed, no send is addressed to the sender. -/
theorem textmessage_fanout
    (server : Server) (client : Client) (txtmsg : TextMessage)
    (hwf : WellFormed server)
    (hall : ∀ s ∈ txtmsg.session, (assocFind s server.clients).isSome) :
    handleTextMessage server client txtmsg =
      Outcome.ok server (txtmsg.session.map fun s =>
        ⟨s, ProtoMsg.textMessageMsg (some client.session) txtmsg.message⟩) ∧
    (client.session ∉ txtmsg.session →
      ∀ sd ∈ txtmsg.session.map (fun s =>
        (⟨s, ProtoMsg.textMessageMsg (some client.session) txtmsg.message⟩ : Send)),
        sd.dest ≠ client.session) := by
  obtain ⟨users, hus⟩ := collectUsers_isSome server txtmsg.session hall
  have hsess := collectUsers_sessions hwf hus
  constructor
  · simp only [handleTextMessage, hus]
    rw [← hsess, List.map_map]
    rfl
  · intro hnot sd hsd hdest
    obtain ⟨s, hs, rfl⟩ := List.mem_map.mp hsd
    exact hnot (hdest ▸ hs)

/-- Witness for C7: sessions [5, 7] from sender session 3 yield exactly the
two sends to 5 and to 7 with actor 3, and none to the sender. -/
theorem textmessage_fanout_witness :
    handleTextMessage sampleServer client3 { session := [5, 7], message := some "msg" } =
      Outcome.ok sampleServer
        (([5, 7] : List Nat).map fun s =>
          ⟨s, ProtoMsg.textMessageMsg (some client3.session) (some "msg")⟩) ∧
    (client3.session ∉ ([5, 7] : List Nat) →
      ∀ sd ∈ ([5, 7] : List Nat).map (fun s =>
        (⟨s, ProtoMsg.textMessageMsg (some client3.session) (some "msg")⟩ : Send)),
        sd.dest ≠ client3.session) :=
  textmessage_fanout sampleServer client3 { session := [5, 7], message := some "msg" }
    (by unfold WellFormed; decide) (by decide)

/-- Claim C8: a UserState request whose user-id (registration) field is
non-negative never assigns a registered identity: `handleUserStateMessage`
returns with the server unchanged (the registration block at
`src/message.go:209-215` performs no write, so no identity is ever
assigned). -/
theorem userstate_registration_rejected
    (server : Server) (client : Client) (userstate : UserState)
    (sid : Nat) (actor user : Client) (v : Int)
    (hsess : userstate.session = some sid)
    (hactor : assocFind client.session server.clients = some actor)
    (huser : assocFind sid server.clients = some user)
    (hreg : userstate.userId = some v) (hv : 0 ≤ v) :
    handleUserStateMessage server client userstate = Outcome.ok server [] := by
  simp [handleUserStateMessage, hsess, hactor, huser]

/-- Witness for C8: client 1 requests registration of itself with user-id 0;
no identity is assigned. -/
theorem userstate_registration_rejected_witness :
    handleUserStateMessage sampleServer client1
      { session := some 1, userId := some 0 } = Outcome.ok sampleServer [] :=
  userstate_registration_rejected sampleServer client1
    { session := some 1, userId := some 0 } 1 client1 client1 0
    rfl (by decide) (by decide) rfl (by decide)

/-- Claim C9 (code bug): the claim says a channel-id request passing every
check moves the user (old member set loses it, new member set gains it,
current-channel reference updated); the channel block of the code
(`src/message.go:162-174`) only looks up the destination and logs — the
checks and the move are comments.  Concretely: client 1 sits in channel 0 of
`sampleServer` and asks to move itself to the existing, empty,
unrestricted channel 1; the handler returns with the server unchanged —
channel 0 still lists session 1, channel 1 is still empty, and client 1's
current channel is still 0. -/
theorem userstate_channel_move_not_performed :
    handleUserStateMessage sampleServer client1
      { session := some 1, channelId := some 1 } =
      Outcome.ok sampleServer [] := by decide

/-- Claim C10: a decoded Ping makes `handlePingMessage` send exactly one Ping
back to the originating client, echoing the request timestamp and carrying
the client's good/late/lost/resync crypt counters, with no state change (the
`uint32` casts are the identity on in-range counters). -/
theorem ping_reply_counters (client : Client) (ping : Ping)
    (hg : client.crypt.good < 4294967296) (hl : client.crypt.late < 4294967296)
    (ho : client.crypt.lost < 4294967296) (hr : client.crypt.resync < 4294967296) :
    handlePingMessage client ping =
      (client, [⟨client.session,
        ProtoMsg.pingMsg ping.timestamp client.crypt.good client.crypt.late
          client.crypt.lost client.crypt.resync⟩]) := by
  simp [handlePingMessage, uint32Of, Nat.mod_eq_of_lt hg, Nat.mod_eq_of_lt hl,
    Nat.mod_eq_of_lt ho, Nat.mod_eq_of_lt hr]

/-- Witness for C10: client 1 pings with timestamp 99 and gets one reply with
timestamp 99 and its counters 5/2/1/4. -/
theorem ping_reply_counters_witness :
    handlePingMessage client1 { timestamp := some 99 } =
      (client1, [⟨client1.session,
        ProtoMsg.pingMsg (some 99) client1.crypt.good client1.crypt.late
          client1.crypt.lost client1.crypt.resync⟩]) :=
  ping_reply_counters client1 { timestamp := some 99 }
    (by decide) (by decide) (by decide) (by decide)

end Grumble
